import Mathlib

/-!
Shallow embedding of the Rentals-Inc application-review core: the fallback
document scorer (`apps/api/lib/ai.ts`), the review-workflow decision policy
(`runReviewWorkflow`), the role gates (`apps/api/lib/auth.ts`), the manual
decision endpoint (`api/applications/[id]/decision.ts`), the get-by-id handler
and the list handler's pagination, together with theorems settling the spec
claims about them.

JavaScript numbers are modelled as exact rationals (`ℚ`): every score the code
builds is a small sum of decimal literals, and the claims are about the decimal
formulas, not about binary rounding.
-/

/-- Application status enum (`ApplicationStatus` in the Prisma schema). -/
inductive ApplicationStatus
  | submitted
  | under_review
  | approved
  | flagged
deriving DecidableEq, Repr

/-- User role enum (`UserRole` in the Prisma schema). -/
inductive UserRole
  | applicant
  | reviewer
  | admin
deriving DecidableEq, Repr

/-- Recommended action enum of `AiReviewResult.recommendedAction`. -/
inductive RecommendedAction
  | approve
  | flag
  | manual_review
deriving DecidableEq, Repr

/-- Signal severity enum of `FraudSignal.severity`. -/
inductive Severity
  | low
  | medium
  | high
deriving DecidableEq, Repr

/-- `FRAUD_THRESHOLD` from `apps/api/lib/workflow.ts`. -/
def FRAUD_THRESHOLD : ℚ := 0.7

/-- `MANUAL_REVIEW_THRESHOLD` from `apps/api/lib/workflow.ts`. -/
def MANUAL_REVIEW_THRESHOLD : ℚ := 0.4

/-- The decision policy of `runReviewWorkflow` (the three-way variant of
`apps/api/lib/workflow.ts`, lines 103–112): computes `nextStatus` from the
scorer's `fraudScore` and `recommendedAction`. -/
def decisionPolicy (fraudScore : ℚ) (recommendedAction : RecommendedAction) :
    ApplicationStatus :=
  if recommendedAction = RecommendedAction.flag ∨ fraudScore ≥ FRAUD_THRESHOLD then
    ApplicationStatus.flagged
  else if recommendedAction = RecommendedAction.manual_review ∨
      fraudScore ≥ MANUAL_REVIEW_THRESHOLD then
    ApplicationStatus.under_review
  else
    ApplicationStatus.approved

/-- The legacy two-way decision of the older `runReviewWorkflow`
(`apps/api/lib/workflow.ts`, line 40): `flagged` iff the score reaches the
fraud threshold, else `approved`. -/
def legacyDecision (fraudScore : ℚ) : ApplicationStatus :=
  if fraudScore ≥ FRAUD_THRESHOLD then ApplicationStatus.flagged
  else ApplicationStatus.approved

/-- `roleValues` from `apps/api/lib/auth.ts`. -/
def roleValues : List String := ["applicant", "reviewer", "admin"]

/-- Interpret one of the three role strings as a `UserRole`. -/
def roleOfString (s : String) : UserRole :=
  if s = "reviewer" then UserRole.reviewer
  else if s = "admin" then UserRole.admin
  else UserRole.applicant

/-- ASCII model of JavaScript `String.prototype.toLowerCase`. -/
def strToLower (s : String) : String :=
  String.mk (s.data.map Char.toLower)

/-- `parseRole` from `apps/api/lib/auth.ts`: a missing (or empty, hence falsy)
header falls back to `applicant`; otherwise the lowercased string is accepted
when it is one of `roleValues`, and anything else falls back to `applicant`. -/
def parseRole (rawRole : Option String) : UserRole :=
  match rawRole with
  | none => UserRole.applicant
  | some raw =>
    if raw = "" then UserRole.applicant
    else
      let normalized := strToLower raw
      if normalized ∈ roleValues then roleOfString normalized
      else UserRole.applicant

/-- `canCreateApplication` from `apps/api/lib/auth.ts`. -/
def canCreateApplication (role : UserRole) : Bool :=
  role = UserRole.applicant || role = UserRole.admin

/-- `canViewApplication` from `apps/api/lib/auth.ts`. -/
def canViewApplication (role : UserRole) : Bool :=
  role = UserRole.applicant || role = UserRole.reviewer || role = UserRole.admin

/-- The role gate of the authenticated create-application handler
(`api/applications/list.ts`, second handler, lines 183–186): the request is
allowed only for the `applicant` role. -/
def authCreateAllowed (role : UserRole) : Bool :=
  role = UserRole.applicant

/-- Document metadata row (`Document` in the Prisma schema; metadata only). -/
structure Document where
  id : String
  filename : String
  mimeType : String
  sizeBytes : ℤ
deriving DecidableEq, Repr

/-- Document type enum of `DocumentClassification.type`. -/
inductive DocType
  | id
  | paystub
  | employment
  | bank_statement
  | reference
  | unknown
deriving DecidableEq, Repr

/-- `DocumentClassification` from `apps/api/lib/ai.ts`. -/
structure DocumentClassification where
  documentId : String
  filename : String
  type : DocType
  confidence : ℚ
deriving DecidableEq, Repr

/-- `FraudSignal` from `apps/api/lib/ai.ts`. -/
structure FraudSignal where
  code : String
  severity : Severity
  description : String
  recommendation : String
deriving DecidableEq, Repr

/-- `AiReviewResult` from `apps/api/lib/ai.ts`. -/
structure AiReviewResult where
  fraudScore : ℚ
  summary : String
  aiNotes : String
  signals : List FraudSignal
  documentClassifications : List DocumentClassification
  recommendedAction : RecommendedAction
  confidenceLevel : ℚ
deriving DecidableEq, Repr

/-- `sub` occurs as a contiguous run inside `s` (character-list version). -/
def charsContain (sub : List Char) : List Char → Bool
  | [] => sub.isEmpty
  | c :: rest => sub.isPrefixOf (c :: rest) || charsContain sub rest

/-- Model of JavaScript `String.prototype.includes`. -/
def includes (s sub : String) : Bool :=
  charsContain sub.data s.data

/-- The per-document classification loop of `analyzeDocumentsFallback`
(`apps/api/lib/ai.ts`): keyword matching on the lowercased filename with a
fixed confidence per match group. -/
def classifyDocument (doc : Document) : DocumentClassification :=
  let lower := strToLower doc.filename
  if includes lower "id" || includes lower "passport" ||
      includes lower "license" || includes lower "driver" then
    ⟨doc.id, doc.filename, DocType.id, 0.8⟩
  else if includes lower "pay" || includes lower "stub" ||
      includes lower "salary" || includes lower "income" then
    ⟨doc.id, doc.filename, DocType.paystub, 0.8⟩
  else if includes lower "employ" || includes lower "letter" ||
      includes lower "offer" || includes lower "job" then
    ⟨doc.id, doc.filename, DocType.employment, 0.75⟩
  else if includes lower "bank" || includes lower "statement" ||
      includes lower "account" then
    ⟨doc.id, doc.filename, DocType.bank_statement, 0.75⟩
  else if includes lower "reference" || includes lower "landlord" ||
      includes lower "recommendation" then
    ⟨doc.id, doc.filename, DocType.reference, 0.7⟩
  else
    ⟨doc.id, doc.filename, DocType.unknown, 0.5⟩

/-- The `missing_id` signal pushed by `analyzeDocumentsFallback`. -/
def missingIdSignal : FraudSignal :=
  ⟨"missing_id", Severity.high, "No identification document detected",
    "Request valid government-issued ID"⟩

/-- The `missing_income_verification` signal of `analyzeDocumentsFallback`. -/
def missingIncomeSignal : FraudSignal :=
  ⟨"missing_income_verification", Severity.high,
    "No income verification document detected",
    "Request recent paystubs or bank statements"⟩

/-- The `missing_employment_verification` signal of
`analyzeDocumentsFallback`. -/
def missingEmploymentSignal : FraudSignal :=
  ⟨"missing_employment_verification", Severity.medium,
    "No employment letter or verification detected",
    "Request employment verification letter"⟩

/-- The `excessive_documents` signal of `analyzeDocumentsFallback`. -/
def excessiveDocumentsSignal : FraudSignal :=
  ⟨"excessive_documents", Severity.low,
    "Unusually high number of documents submitted",
    "Review for potential confusion or padding"⟩

/-- The `suspicious_file_size` signal of `analyzeDocumentsFallback`; its
description interpolates the count of sub-5000-byte documents. -/
def suspiciousFileSizeSignal (tinyCount : ℕ) : FraudSignal :=
  ⟨"suspicious_file_size", Severity.medium,
    toString tinyCount ++ " document(s) have unusually small file sizes",
    "Verify document quality and authenticity"⟩

/-- The classification pass of `analyzeDocumentsFallback`. -/
def fallbackClassifications (documents : List Document) :
    List DocumentClassification :=
  documents.map classifyDocument

/-- The tiny-document filter of `analyzeDocumentsFallback`
(`documents.filter((d) => d.sizeBytes < 5000)`). -/
def tinyDocuments (documents : List Document) : List Document :=
  documents.filter (fun d => d.sizeBytes < 5000)

/-- The signal-building pass of `analyzeDocumentsFallback`, in the source's
push order: missing-id, missing-income, missing-employment, excessive count
(`> 6`), suspicious file size (`< 5000` bytes). -/
def fallbackSignals (documents : List Document) : List FraudSignal :=
  let documentClassifications := fallbackClassifications documents
  let hasId := documentClassifications.any (fun d => d.type == DocType.id)
  let hasIncome := documentClassifications.any
    (fun d => d.type == DocType.paystub || d.type == DocType.bank_statement)
  let hasEmployment := documentClassifications.any
    (fun d => d.type == DocType.employment)
  (if !hasId then [missingIdSignal] else []) ++
  (if !hasIncome then [missingIncomeSignal] else []) ++
  (if !hasEmployment then [missingEmploymentSignal] else []) ++
  (if documents.length > 6 then [excessiveDocumentsSignal] else []) ++
  (if (tinyDocuments documents).length > 0 then
    [suspiciousFileSizeSignal (tinyDocuments documents).length] else [])

/-- `signals.filter((s) => s.severity === "high").length`. -/
def highCount (signals : List FraudSignal) : ℕ :=
  (signals.filter (fun s => s.severity == Severity.high)).length

/-- `signals.filter((s) => s.severity === "medium").length`. -/
def mediumCount (signals : List FraudSignal) : ℕ :=
  (signals.filter (fun s => s.severity == Severity.medium)).length

/-- The fraud-score formula of `analyzeDocumentsFallback`:
`Math.min(0.95, 0.1 + highSeverityCount * 0.25 + mediumSeverityCount * 0.1)`. -/
def fallbackScore (signals : List FraudSignal) : ℚ :=
  min 0.95 (0.1 + (highCount signals : ℚ) * 0.25 + (mediumCount signals : ℚ) * 0.1)

/-- The recommendation block of `analyzeDocumentsFallback`. -/
def fallbackAction (signals : List FraudSignal) (fraudScore : ℚ) :
    RecommendedAction :=
  if highCount signals ≥ 2 ∨ fraudScore ≥ 0.7 then RecommendedAction.flag
  else if highCount signals ≥ 1 ∨ mediumCount signals ≥ 2 then
    RecommendedAction.manual_review
  else RecommendedAction.approve

/-- The summary string of `analyzeDocumentsFallback`. -/
def fallbackSummary (fraudScore : ℚ) : String :=
  if fraudScore ≥ 0.7 then "High risk detected. Manual review strongly recommended."
  else if fraudScore ≥ 0.4 then "Some concerns detected. Recommend careful review."
  else "Documents appear consistent. Low risk detected."

/-- The TypeScript string value of a `DocType`. -/
def DocType.asString : DocType → String
  | DocType.id => "id"
  | DocType.paystub => "paystub"
  | DocType.employment => "employment"
  | DocType.bank_statement => "bank_statement"
  | DocType.reference => "reference"
  | DocType.unknown => "unknown"

/-- `severity.toUpperCase()` as used in the fallback notes. -/
def Severity.asUpperString : Severity → String
  | Severity.low => "LOW"
  | Severity.medium => "MEDIUM"
  | Severity.high => "HIGH"

/-- The reviewer-notes string of `analyzeDocumentsFallback`;
`Math.round(d.confidence * 100)` is the half-up rounding `round` on `ℚ`. -/
def fallbackNotes (documentClassifications : List DocumentClassification)
    (signals : List FraudSignal) : String :=
  "Rule-based analysis completed (AI API not available).\n\n" ++
  "Document Classification Summary:\n" ++
  String.intercalate "\n" (documentClassifications.map (fun d =>
    "- " ++ d.filename ++ ": " ++ d.type.asString ++ " (" ++
      toString (round (d.confidence * 100)) ++ "% confidence)")) ++
  "\n\nKey Findings:\n" ++
  (if signals.length > 0 then
    String.intercalate "\n" (signals.map (fun s =>
      "- [" ++ s.severity.asUpperString ++ "] " ++ s.description))
  else "- No significant issues detected") ++
  "\n\nThis analysis was performed using rule-based heuristics. " ++
  "For more detailed analysis, ensure the AI API key is configured."

/-- `analyzeDocumentsFallback` from `apps/api/lib/ai.ts`: the deterministic
rule-based scorer used when the remote scoring service is unavailable. -/
def analyzeDocumentsFallback (documents : List Document) : AiReviewResult :=
  let documentClassifications := fallbackClassifications documents
  let signals := fallbackSignals documents
  let fraudScore := fallbackScore signals
  let recommendedAction := fallbackAction signals fraudScore
  { fraudScore := fraudScore
    summary := fallbackSummary fraudScore
    aiNotes := fallbackNotes documentClassifications signals
    signals := signals
    documentClassifications := documentClassifications
    recommendedAction := recommendedAction
    confidenceLevel := 0.6 }

/-- The concrete seven-document submission of the §8 scenario: one document of
2000 bytes, filenames covering id, income and employment so that no
missing-document signal fires. -/
def docs7 : List Document :=
  [⟨"d1", "id.pdf", "application/pdf", 2000⟩,
   ⟨"d2", "paystub.pdf", "application/pdf", 6000⟩,
   ⟨"d3", "employment.pdf", "application/pdf", 6000⟩,
   ⟨"d4", "extra1.png", "image/png", 6000⟩,
   ⟨"d5", "extra2.png", "image/png", 6000⟩,
   ⟨"d6", "extra3.png", "image/png", 6000⟩,
   ⟨"d7", "extra4.png", "image/png", 6000⟩]

/-- A database write performed by the create-application handlers. -/
inductive DbWrite
  | createApplication
  | runWorkflow
deriving DecidableEq, Repr

/-- The role-gate portion of the legacy create-application handler
(`api/applications/list.ts`, second handler, lines 99–103): HTTP status and
the database writes performed. A rejected request performs no write. -/
def legacyCreateHandler (role : UserRole) : ℕ × List DbWrite :=
  if canCreateApplication role then
    (201, [DbWrite.createApplication, DbWrite.runWorkflow])
  else (403, [])

/-- The role-gate portion of the authenticated create-application handler
(`api/applications/list.ts`, third handler, lines 183–186). -/
def authCreateHandler (role : UserRole) : ℕ × List DbWrite :=
  if authCreateAllowed role then
    (201, [DbWrite.createApplication, DbWrite.runWorkflow])
  else (403, [])

/-- Authenticated session user as produced by `getSessionUser`
(`apps/api/lib/session.ts`). -/
structure SessionUser where
  id : String
  email : String
  name : String
  role : UserRole
deriving DecidableEq, Repr

/-- The validated decision body (`decisionInputSchema`:
`z.enum(["approved", "flagged"])`). -/
inductive ManualDecision
  | approved
  | flagged
deriving DecidableEq, Repr

/-- The status value written for a manual decision (the handler stores the
decision string directly into `Application.status`). -/
def ManualDecision.toStatus : ManualDecision → ApplicationStatus
  | ManualDecision.approved => ApplicationStatus.approved
  | ManualDecision.flagged => ApplicationStatus.flagged

/-- The TypeScript string value of a `ManualDecision`. -/
def ManualDecision.asString : ManualDecision → String
  | ManualDecision.approved => "approved"
  | ManualDecision.flagged => "flagged"

/-- Application row (`Application` in the Prisma schema); store-managed
timestamps are outside the model. -/
structure Application where
  id : String
  applicantName : String
  applicantEmail : String
  applicantPhone : Option String
  applicantId : Option String
  status : ApplicationStatus
deriving DecidableEq, Repr

/-- ReviewResult row (`ReviewResult` in the Prisma schema, after the
`add_ai_fields` migration). -/
structure ReviewResult where
  applicationId : String
  fraudScore : ℚ
  summary : String
  aiNotes : String
  signals : List FraudSignal
  documentClassifications : List DocumentClassification
  recommendedAction : RecommendedAction
  confidenceLevel : ℚ
  isAiGenerated : Bool
deriving DecidableEq, Repr

/-- A JSON scalar stored in audit metadata. -/
inductive MetaValue
  | str (s : String)
  | num (q : ℚ)
  | bool (b : Bool)
  | null
deriving DecidableEq, Repr

/-- AuditEvent row (`AuditEvent` in the Prisma schema); metadata as a
key-value record. -/
structure AuditEvent where
  applicationId : String
  actorRole : UserRole
  action : String
  metadata : List (String × MetaValue)
deriving DecidableEq, Repr

/-- The rows of one application's aggregate in the relational store. -/
structure DbState where
  app : Application
  documents : List Document
  reviewResults : List ReviewResult
  auditEvents : List AuditEvent
deriving DecidableEq, Repr

/-- The metadata object built by the manual-decision handler
(`api/applications/[id]/decision.ts`, lines 61–66): decision, optional notes,
and the deciding user's identity. -/
def manualDecisionMetadata (decision : ManualDecision) (notes : Option String)
    (user : SessionUser) : List (String × MetaValue) :=
  [("decision", MetaValue.str decision.asString),
   ("notes", match notes with
     | some n => MetaValue.str n
     | none => MetaValue.null),
   ("userId", MetaValue.str user.id),
   ("userName", MetaValue.str user.name)]

/-- The two database writes of the manual-decision handler
(`api/applications/[id]/decision.ts`, lines 49–68): update the application's
status to the decision, then create one `manual_decision` audit event. -/
def manualDecisionStep (st : DbState) (user : SessionUser)
    (decision : ManualDecision) (notes : Option String) : DbState :=
  { st with
    app := { st.app with status := decision.toStatus },
    auditEvents := st.auditEvents ++
      [⟨st.app.id, user.role, "manual_decision",
        manualDecisionMetadata decision notes user⟩] }

/-- The manual-decision handler including its role gate
(`api/applications/[id]/decision.ts`, lines 31–34): reviewers and admins may
decide; everyone else gets 403 and no write. -/
def decisionHandler (st : DbState) (user : SessionUser)
    (decision : ManualDecision) (notes : Option String) : ℕ × DbState :=
  if user.role ≠ UserRole.reviewer ∧ user.role ≠ UserRole.admin then (403, st)
  else (200, manualDecisionStep st user decision notes)

/-- A demonstration reviewer session. -/
def demoReviewer : SessionUser :=
  ⟨"user-7", "reviewer@rentals.example", "Rey Viewer", UserRole.reviewer⟩

/-- A stored review result whose AI-suggested action is `a`. -/
def demoReviewResult (a : RecommendedAction) : ReviewResult :=
  ⟨"app-1", 0.5, "Some concerns detected. Recommend careful review.",
    "notes", [], [], a, 0.6, false⟩

/-- A state holding a flagged application whose prior review suggested `a`. -/
def demoState (a : RecommendedAction) : DbState :=
  ⟨⟨"app-1", "Ann Applicant", "ann@rentals.example", none, some "user-1",
     ApplicationStatus.flagged⟩,
   [⟨"d1", "id.pdf", "application/pdf", 9000⟩],
   [demoReviewResult a],
   [⟨"app-1", UserRole.admin, "workflow_decision",
      [("status", MetaValue.str "flagged")]⟩]⟩

/-- The status writes that can hit an existing application, one constructor
per write site: step 1 of both review workflows (`status: "under_review"`),
the final write of the three-way workflow (`part_007`), the final write of the
legacy two-way workflow (`workflow.ts`), and the manual-decision endpoint. -/
inductive WorkflowOp
  | workflowStart
  | workflowDecide (fraudScore : ℚ) (recommendedAction : RecommendedAction)
  | legacyWorkflowDecide (fraudScore : ℚ)
  | manualDecide (decision : ManualDecision)

/-- The status written by one operation on an application whose current status
is `s`; every write site stores a fixed non-`submitted` value. -/
def applyOp (op : WorkflowOp) (_s : ApplicationStatus) : ApplicationStatus :=
  match op with
  | WorkflowOp.workflowStart => ApplicationStatus.under_review
  | WorkflowOp.workflowDecide score action => decisionPolicy score action
  | WorkflowOp.legacyWorkflowDecide score => legacyDecision score
  | WorkflowOp.manualDecide decision => decision.toStatus

/-- Response of the authenticated get-application-by-id handler
(`api/applications/[id].ts`, session variant, `part_008`). -/
inductive GetByIdResponse
  | notFound
  | forbidden
  | ok (app : Application)
deriving DecidableEq, Repr

/-- The lookup-and-authorize portion of the authenticated get-by-id handler
(`part_008`, lines 35–59): 404 when the application does not exist; for an
`applicant` caller, 403 unless the stored `applicantId` matches the caller's
id or the stored `applicantEmail` matches the caller's email; reviewers and
admins see every application. -/
def getApplicationHandler (user : SessionUser) (found : Option Application) :
    GetByIdResponse :=
  match found with
  | none => GetByIdResponse.notFound
  | some application =>
    if user.role = UserRole.applicant then
      if application.applicantId ≠ some user.id ∧
          application.applicantEmail ≠ user.email then
        GetByIdResponse.forbidden
      else GetByIdResponse.ok application
    else GetByIdResponse.ok application

/-- The effective page size of the list-applications handler
(`api/applications/list.ts`, line 32):
`Math.min(100, parseInt(req.query.limit) || 20)`. `rawLimit` is the `parseInt`
outcome, `none` standing for `NaN` (missing or unparsable); JavaScript `||`
replaces both `NaN` and `0` by the default 20. -/
def effectiveLimit (rawLimit : Option ℤ) : ℤ :=
  min 100 (match rawLimit with
    | some n => if n = 0 then 20 else n
    | none => 20)

/-- The rows returned by the Prisma query `take: limit, skip: offset`,
modelled for nonnegative `limit` and `offset` (a negative Prisma `take` reads
from the end of the result set and is outside this model). -/
def pageOf (apps : List Application) (limit offset : ℤ) : List Application :=
  (apps.drop offset.toNat).take limit.toNat

/-- A demonstration application row. -/
def demoApp : Application :=
  ⟨"app-0", "Ann Applicant", "ann@rentals.example", none, some "user-1",
    ApplicationStatus.submitted⟩

/-- A store holding thirty applications. -/
def thirtyApps : List Application := List.replicate 30 demoApp

/-- A JSON value, as returned by `JSON.parse` of the remote scoring service's
response text. -/
inductive Json
  | null
  | bool (b : Bool)
  | num (q : ℚ)
  | str (s : String)
  | arr (items : List Json)
  | obj (fields : List (String × Json))

/-- JavaScript property access `parsed[key]`: the field's value on an object,
`undefined` (modelled as `null`, which is equally nullish) when the key is
absent or the receiver is a non-object primitive. -/
def Json.getField (j : Json) (key : String) : Json :=
  match j with
  | Json.obj fields => (fields.lookup key).getD Json.null
  | _ => Json.null

/-- JavaScript nullish coalescing `a ?? b` on a parsed JSON field. -/
def jsonOr (j dflt : Json) : Json :=
  match j with
  | Json.null => dflt
  | _ => j

/-- `Math.max(0, Math.min(1, q))` as used by `parseGrokResponse`. -/
def clampUnit (q : ℚ) : ℚ := max 0 (min 1 q)

/-- A clamped numeric field of `parseGrokResponse`:
`Math.max(0, Math.min(1, parsed[key] ?? dflt))`. `none` models the outcome for
a present non-numeric field (JavaScript `Math.min` then coerces or yields
`NaN`; that coercion is outside this model). -/
def clampedNumField (j : Json) (key : String) (dflt : ℚ) : Option ℚ :=
  match j.getField key with
  | Json.null => some (clampUnit dflt)
  | Json.num q => some (clampUnit q)
  | _ => none

/-- The default per-document classification object built by
`parseGrokResponse` when the response carries no classification array
(confidence 0.5 on parse success, 0.3 in the catch branch). -/
def defaultClassificationJson (confidence : ℚ) (doc : Document) : Json :=
  Json.obj [("documentId", Json.str doc.id),
    ("filename", Json.str doc.filename),
    ("type", Json.str "unknown"),
    ("confidence", Json.num confidence)]

/-- The synthetic `ai_parse_error` signal object of the catch branch of
`parseGrokResponse`. -/
def parseErrorSignalJson : Json :=
  Json.obj [("code", Json.str "ai_parse_error"),
    ("severity", Json.str "medium"),
    ("description", Json.str "AI response could not be fully parsed"),
    ("recommendation", Json.str "Manual review required")]

/-- The result shape actually produced at runtime by `parseGrokResponse`
(`apps/api/lib/ai.ts`, lines 146–203). The TypeScript annotation promises
`AiReviewResult`, but the parsed JSON is spread without validation, so
`summary`, `aiNotes`, `signals`, `documentClassifications` and
`recommendedAction` hold whatever the response contained; the numeric fields
are `Option ℚ` with `none` for the unmodelled non-numeric case. -/
structure RemoteParsedResult where
  fraudScore : Option ℚ
  summary : Json
  aiNotes : Json
  signals : List Json
  documentClassifications : List Json
  recommendedAction : Json
  confidenceLevel : Option ℚ

/-- The catch branch of `parseGrokResponse`: the safe fallback payload, with
the raw response excerpt (`response.slice(0, 200)`) quoted in the notes. -/
def grokParseFailure (response : String) (documents : List Document) :
    RemoteParsedResult :=
  { fraudScore := some 0.5
    summary :=
      Json.str "AI analysis encountered an issue. Manual review recommended."
    aiNotes := Json.str
      ("The AI was unable to fully parse the response. Raw response excerpt: "
        ++ String.mk (response.data.take 200) ++ "...")
    signals := [parseErrorSignalJson]
    documentClassifications := documents.map (defaultClassificationJson 0.3)
    recommendedAction := Json.str "manual_review"
    confidenceLevel := some 0.3 }

/-- `parseGrokResponse` from `apps/api/lib/ai.ts`. `JSON.parse` (after the
markdown-fence cleanup) is the external collaborator; its outcome is `parsed`,
with `none` for a parse exception. A parsed top-level `null` makes the first
property access throw, so it lands in the same catch branch. On success every
field is taken from the parsed object with only nullish defaulting; the two
numeric fields are clamped into `[0, 1]`. -/
def parseGrokResponse (response : String) (parsed : Option Json)
    (documents : List Document) : RemoteParsedResult :=
  match parsed with
  | none => grokParseFailure response documents
  | some Json.null => grokParseFailure response documents
  | some j =>
    { fraudScore := clampedNumField j "fraudScore" 0.5
      summary := jsonOr (j.getField "summary") (Json.str "Analysis completed.")
      aiNotes :=
        jsonOr (j.getField "aiNotes") (Json.str "No detailed notes provided.")
      signals := match j.getField "signals" with
        | Json.arr items => items
        | _ => []
      documentClassifications := match j.getField "documentClassifications" with
        | Json.arr items => items
        | _ => documents.map (defaultClassificationJson 0.5)
      recommendedAction :=
        jsonOr (j.getField "recommendedAction") (Json.str "manual_review")
      confidenceLevel := clampedNumField j "confidenceLevel" 0.5 }

/-- A response is a well-formed recommended action when it is one of the three
enum strings of `AiReviewResult.recommendedAction`. -/
def wellFormedAction (j : Json) : Prop :=
  j = Json.str "approve" ∨ j = Json.str "flag" ∨ j = Json.str "manual_review"

/-- A syntactically valid JSON response whose `recommendedAction` is not one
of the three enum values. -/
def garbageGrokJson : Json :=
  Json.obj [("recommendedAction", Json.str "garbage")]

/-- C1: the decision policy is total (a Lean function into the status enum,
with no error case) and deterministic (a function of its two arguments), it
never yields `submitted`, and it picks `flagged`/`under_review`/`approved`
exactly by the claimed threshold conditions. -/
theorem decisionPolicy_cases (s : ℚ) (a : RecommendedAction) :
    (decisionPolicy s a ≠ ApplicationStatus.submitted) ∧
    (decisionPolicy s a = ApplicationStatus.flagged ↔
      (a = RecommendedAction.flag ∨ s ≥ 0.7)) ∧
    (decisionPolicy s a = ApplicationStatus.under_review ↔
      (¬(a = RecommendedAction.flag ∨ s ≥ 0.7) ∧
        (a = RecommendedAction.manual_review ∨ s ≥ 0.4))) ∧
    (decisionPolicy s a = ApplicationStatus.approved ↔
      (¬(a = RecommendedAction.flag ∨ s ≥ 0.7) ∧
        ¬(a = RecommendedAction.manual_review ∨ s ≥ 0.4))) := by
  unfold decisionPolicy FRAUD_THRESHOLD MANUAL_REVIEW_THRESHOLD
  by_cases h1 : a = RecommendedAction.flag ∨ s ≥ 0.7 <;>
    by_cases h2 : a = RecommendedAction.manual_review ∨ s ≥ 0.4 <;>
    simp [h1, h2]

/-- C10: `parseRole` is total and fails to least privilege: it returns
`applicant` on a missing header, and on any string it returns the role named
by the lowercased input when that is one of `applicant`, `reviewer`, `admin`,
and `applicant` otherwise. -/
theorem parseRole_total_least_privilege :
    parseRole none = UserRole.applicant ∧
    (∀ s : String,
      (strToLower s = "applicant" → parseRole (some s) = UserRole.applicant) ∧
      (strToLower s = "reviewer" → parseRole (some s) = UserRole.reviewer) ∧
      (strToLower s = "admin" → parseRole (some s) = UserRole.admin) ∧
      (strToLower s ∉ roleValues → parseRole (some s) = UserRole.applicant)) := by
  refine ⟨rfl, fun s => ⟨?_, ?_, ?_, ?_⟩⟩ <;> intro h
  · by_cases he : s = ""
    · simp [parseRole, he]
    · simp [parseRole, he, h, roleValues, roleOfString]
  · have he : s ≠ "" := by
      intro he; rw [he] at h; exact absurd h (by decide)
    simp [parseRole, he, h, roleValues, roleOfString]
  · have he : s ≠ "" := by
      intro he; rw [he] at h; exact absurd h (by decide)
    simp [parseRole, he, h, roleValues, roleOfString]
  · by_cases he : s = ""
    · simp [parseRole, he]
    · simp [parseRole, he, h]

/-- Projection helper: the fraud score of the fallback result is the score
formula applied to the emitted signals. -/
theorem fallback_fraudScore_eq (documents : List Document) :
    (analyzeDocumentsFallback documents).fraudScore
      = fallbackScore (fallbackSignals documents) := rfl

/-- Projection helper: the recommended action of the fallback result is the
recommendation block applied to the emitted signals and score. -/
theorem fallback_action_eq (documents : List Document) :
    (analyzeDocumentsFallback documents).recommendedAction
      = fallbackAction (fallbackSignals documents)
          (fallbackScore (fallbackSignals documents)) := rfl

/-- Projection helper: the signals of the fallback result are the emitted
signals. -/
theorem fallback_signals_eq (documents : List Document) :
    (analyzeDocumentsFallback documents).signals = fallbackSignals documents := rfl

/-- C2: for every document list, the local fallback scorer's fraud score is
`min(0.95, 0.1 + 0.25·highSeverityCount + 0.1·mediumSeverityCount)` where the
counts range over the signals it returned, the score lies in `[0, 0.95]`, and
the recommended action is `flag` when `highSeverityCount ≥ 2` or the score is
`≥ 0.7`, else `manual_review` when `highSeverityCount ≥ 1` or
`mediumSeverityCount ≥ 2`, else `approve`. -/
theorem fallback_score_formula_and_action (documents : List Document) :
    (analyzeDocumentsFallback documents).fraudScore =
      min 0.95 (0.1 +
        (highCount (analyzeDocumentsFallback documents).signals : ℚ) * 0.25 +
        (mediumCount (analyzeDocumentsFallback documents).signals : ℚ) * 0.1) ∧
    0 ≤ (analyzeDocumentsFallback documents).fraudScore ∧
    (analyzeDocumentsFallback documents).fraudScore ≤ 0.95 ∧
    (analyzeDocumentsFallback documents).recommendedAction =
      (if highCount (analyzeDocumentsFallback documents).signals ≥ 2 ∨
          (analyzeDocumentsFallback documents).fraudScore ≥ 0.7 then
        RecommendedAction.flag
      else if highCount (analyzeDocumentsFallback documents).signals ≥ 1 ∨
          mediumCount (analyzeDocumentsFallback documents).signals ≥ 2 then
        RecommendedAction.manual_review
      else RecommendedAction.approve) := by
  refine ⟨rfl, ?_, ?_, rfl⟩
  · show (0 : ℚ) ≤ fallbackScore (fallbackSignals documents)
    unfold fallbackScore
    positivity
  · show fallbackScore (fallbackSignals documents) ≤ 0.95
    unfold fallbackScore
    exact min_le_left _ _

/-- C3 counterexample: on the concrete seven-document submission `docs7` —
7 documents, exactly one of size 2000 bytes, filenames triggering no
missing-document signal — the fallback scorer emits exactly the
`excessive_documents` (low) and `suspicious_file_size` (medium) signals, its
score is `0.1 + 0·0.25 + 1·0.1 = 0.2` per the §4.2 formula, and the
classification that same formula yields is `approve`, not `manual_review` and
not `flag`. -/
theorem seven_docs_scenario_refuted :
    docs7.length = 7 ∧
    (docs7.filter (fun d => d.sizeBytes == 2000)).length = 1 ∧
    (fallbackSignals docs7).map (fun s => (s.code, s.severity)) =
      [("excessive_documents", Severity.low),
       ("suspicious_file_size", Severity.medium)] ∧
    (analyzeDocumentsFallback docs7).fraudScore = 0.2 ∧
    (analyzeDocumentsFallback docs7).recommendedAction = RecommendedAction.approve ∧
    RecommendedAction.approve ≠ RecommendedAction.manual_review ∧
    RecommendedAction.approve ≠ RecommendedAction.flag := by
  have hsig : fallbackSignals docs7
      = [excessiveDocumentsSignal, suspiciousFileSizeSignal 1] := by decide
  have h1 : highCount [excessiveDocumentsSignal, suspiciousFileSizeSignal 1] = 0 := by
    decide
  have h2 : mediumCount [excessiveDocumentsSignal, suspiciousFileSizeSignal 1] = 1 := by
    decide
  refine ⟨by decide, by decide, by decide, ?_, ?_, by decide, by decide⟩
  · rw [fallback_fraudScore_eq, hsig]
    simp only [fallbackScore, h1, h2]
    norm_num [min_def]
  · rw [fallback_action_eq, hsig]
    simp only [fallbackAction, fallbackScore, h1, h2]
    norm_num [min_def]

/-- C3 amended: for every submission of 7 documents where at least one document
(here: one of size 2000 bytes) falls below the 5000-byte threshold and the
filenames trigger no missing-document signal, the fallback scorer emits exactly
the `excessive_documents` (low) and `suspicious_file_size` (medium) signals,
its fraud score is `min(0.95, 0.1 + 0·0.25 + 1·0.1) = 0.2` per the §4.2
formula, and the resulting classification is `approve`, matching that formula
(not `manual_review` or `flagged`). -/
theorem seven_docs_scenario_amended (documents : List Document)
    (h7 : documents.length = 7)
    (hid : (fallbackClassifications documents).any
      (fun d => d.type == DocType.id) = true)
    (hincome : (fallbackClassifications documents).any
      (fun d => d.type == DocType.paystub || d.type == DocType.bank_statement) = true)
    (hemploy : (fallbackClassifications documents).any
      (fun d => d.type == DocType.employment) = true)
    (hone : (documents.filter (fun d => d.sizeBytes == 2000)).length = 1) :
    fallbackSignals documents =
      [excessiveDocumentsSignal,
       suspiciousFileSizeSignal (tinyDocuments documents).length] ∧
    1 ≤ (tinyDocuments documents).length ∧
    (analyzeDocumentsFallback documents).fraudScore = 0.2 ∧
    (analyzeDocumentsFallback documents).recommendedAction = RecommendedAction.approve := by
  have htiny : 1 ≤ (tinyDocuments documents).length := by
    have hne : documents.filter (fun d => d.sizeBytes == 2000) ≠ [] := by
      intro h
      rw [h] at hone
      exact absurd hone (by decide)
    obtain ⟨d, hd⟩ := List.exists_mem_of_ne_nil _ hne
    rw [List.mem_filter] at hd
    have hsize : d.sizeBytes = 2000 := by
      have := hd.2
      simpa using this
    have hmem : d ∈ tinyDocuments documents := by
      rw [tinyDocuments, List.mem_filter]
      refine ⟨hd.1, ?_⟩
      simp [hsize]
    exact List.length_pos.mpr (List.ne_nil_of_mem hmem)
  have hsig : fallbackSignals documents =
      [excessiveDocumentsSignal,
       suspiciousFileSizeSignal (tinyDocuments documents).length] := by
    simp only [fallbackSignals, hid, hincome, hemploy, h7, Bool.not_true]
    have hgt : (tinyDocuments documents).length > 0 := htiny
    simp [hgt]
  have h1 : highCount [excessiveDocumentsSignal,
      suspiciousFileSizeSignal (tinyDocuments documents).length] = 0 := rfl
  have h2 : mediumCount [excessiveDocumentsSignal,
      suspiciousFileSizeSignal (tinyDocuments documents).length] = 1 := rfl
  refine ⟨hsig, htiny, ?_, ?_⟩
  · rw [fallback_fraudScore_eq, hsig]
    simp only [fallbackScore, h1, h2]
    norm_num [min_def]
  · rw [fallback_action_eq, hsig]
    simp only [fallbackAction, fallbackScore, h1, h2]
    norm_num [min_def]

/-- Witness for the amended C3 theorem at the concrete submission `docs7`. -/
theorem seven_docs_scenario_amended_witness :
    docs7.length = 7 ∧
    (fallbackSignals docs7 =
      [excessiveDocumentsSignal,
       suspiciousFileSizeSignal (tinyDocuments docs7).length] ∧
     1 ≤ (tinyDocuments docs7).length ∧
     (analyzeDocumentsFallback docs7).fraudScore = 0.2 ∧
     (analyzeDocumentsFallback docs7).recommendedAction = RecommendedAction.approve) :=
  ⟨by decide,
   seven_docs_scenario_amended docs7 (by decide) (by decide) (by decide)
     (by decide) (by decide)⟩

/-- Witness for the C10 theorem at the concrete header value `"Admin"`. -/
theorem parseRole_total_least_privilege_witness :
    parseRole (some "Admin") = UserRole.admin :=
  (parseRole_total_least_privilege.2 "Admin").2.2.1 (by decide)

/-- C7 counterexample: a create-application request by an `admin` caller is
rejected (HTTP 403, no database write) by the authenticated create handler,
although `canCreateApplication` of the legacy handler would permit it — so it
is not the case that every create-application request with role `admin` is
permitted. -/
theorem create_gate_admin_refuted :
    authCreateHandler UserRole.admin = (403, []) ∧
    canCreateApplication UserRole.admin = true := by
  decide

/-- C7 amended: the legacy create handler (header-derived role) permits exactly
the roles `applicant` and `admin`, while the authenticated create handler
permits exactly `applicant`; on every other role each handler rejects with an
explicit 403 and performs no database write. -/
theorem create_gates_characterization (role : UserRole) :
    (canCreateApplication role = true ↔
      (role = UserRole.applicant ∨ role = UserRole.admin)) ∧
    (authCreateAllowed role = true ↔ role = UserRole.applicant) ∧
    (canCreateApplication role = false →
      legacyCreateHandler role = (403, [])) ∧
    (authCreateAllowed role = false →
      authCreateHandler role = (403, [])) ∧
    (canCreateApplication role = true →
      legacyCreateHandler role =
        (201, [DbWrite.createApplication, DbWrite.runWorkflow])) ∧
    (authCreateAllowed role = true →
      authCreateHandler role =
        (201, [DbWrite.createApplication, DbWrite.runWorkflow])) := by
  cases role <;> simp [canCreateApplication, authCreateAllowed,
    legacyCreateHandler, authCreateHandler]

/-- Witness for the amended C7 theorem at the `reviewer` role: a reviewer is
rejected by both create handlers with no write. -/
theorem create_gates_characterization_witness :
    legacyCreateHandler UserRole.reviewer = (403, []) ∧
    authCreateHandler UserRole.reviewer = (403, []) :=
  ⟨(create_gates_characterization UserRole.reviewer).2.2.1 (by decide),
   (create_gates_characterization UserRole.reviewer).2.2.2.1 (by decide)⟩

/-- C4 counterexample: two states that differ only in the prior AI-suggested
action (`approve` vs `flag`) yield byte-for-byte identical `manual_decision`
audit events, so the new event's metadata does not preserve (or even mention)
the prior AI-suggested action; it records only decision, notes and reviewer
identity. -/
theorem manual_decision_metadata_refuted :
    (demoState RecommendedAction.approve).reviewResults.map
        ReviewResult.recommendedAction ≠
      (demoState RecommendedAction.flag).reviewResults.map
        ReviewResult.recommendedAction ∧
    (decisionHandler (demoState RecommendedAction.approve) demoReviewer
        ManualDecision.approved none).2.auditEvents.getLast? =
      (decisionHandler (demoState RecommendedAction.flag) demoReviewer
        ManualDecision.approved none).2.auditEvents.getLast? := by
  constructor
  · simp [demoState, demoReviewResult]
  · rfl

/-- C4 amended: for every state and every manual decision by a reviewer or
admin, the handler answers 200 and updates only the application's `status`
field (to `approved` or `flagged`); it appends exactly one new `AuditEvent`,
whose action code is the distinct `manual_decision` and whose metadata records
the decision, the optional notes and the deciding user; it does not delete or
alter any existing `ReviewResult` or `AuditEvent` row (the prior
`workflow_decision` event carrying the AI-suggested action survives
unchanged); the prior AI-suggested action is not copied into the new event's
metadata. -/
theorem manual_decision_frame (st : DbState) (user : SessionUser)
    (decision : ManualDecision) (notes : Option String)
    (hrole : user.role = UserRole.reviewer ∨ user.role = UserRole.admin) :
    (decisionHandler st user decision notes).1 = 200 ∧
    ((decisionHandler st user decision notes).2.app.status = decision.toStatus ∧
      ((decisionHandler st user decision notes).2.app.status =
          ApplicationStatus.approved ∨
        (decisionHandler st user decision notes).2.app.status =
          ApplicationStatus.flagged)) ∧
    (decisionHandler st user decision notes).2.app.id = st.app.id ∧
    (decisionHandler st user decision notes).2.app.applicantName =
      st.app.applicantName ∧
    (decisionHandler st user decision notes).2.app.applicantEmail =
      st.app.applicantEmail ∧
    (decisionHandler st user decision notes).2.app.applicantPhone =
      st.app.applicantPhone ∧
    (decisionHandler st user decision notes).2.app.applicantId =
      st.app.applicantId ∧
    (decisionHandler st user decision notes).2.documents = st.documents ∧
    (decisionHandler st user decision notes).2.reviewResults =
      st.reviewResults ∧
    (decisionHandler st user decision notes).2.auditEvents =
      st.auditEvents ++
        [⟨st.app.id, user.role, "manual_decision",
          manualDecisionMetadata decision notes user⟩] ∧
    (decisionHandler st user decision notes).2.auditEvents.length =
      st.auditEvents.length + 1 ∧
    (∀ e ∈ st.auditEvents, e ∈ (decisionHandler st user decision notes).2.auditEvents) := by
  have hgate : ¬(user.role ≠ UserRole.reviewer ∧ user.role ≠ UserRole.admin) := by
    rcases hrole with h | h <;> simp [h]
  have hd : decisionHandler st user decision notes =
      (200, manualDecisionStep st user decision notes) := by
    rw [decisionHandler, if_neg hgate]
  rw [hd]
  refine ⟨rfl, ⟨rfl, ?_⟩, rfl, rfl, rfl, rfl, rfl, rfl, rfl, rfl, ?_, ?_⟩
  · cases decision <;> simp [manualDecisionStep, ManualDecision.toStatus]
  · simp [manualDecisionStep]
  · intro e he
    simp only [manualDecisionStep, List.mem_append]
    exact Or.inl he

/-- Witness for the C4 frame theorem: a concrete reviewer overriding a flagged
application to `approved`. -/
theorem manual_decision_frame_witness :
    (decisionHandler (demoState RecommendedAction.flag) demoReviewer
        ManualDecision.approved none).1 = 200 ∧
    (decisionHandler (demoState RecommendedAction.flag) demoReviewer
        ManualDecision.approved none).2.app.status = ApplicationStatus.approved ∧
    (decisionHandler (demoState RecommendedAction.flag) demoReviewer
        ManualDecision.approved none).2.reviewResults =
      (demoState RecommendedAction.flag).reviewResults :=
  ⟨(manual_decision_frame (demoState RecommendedAction.flag) demoReviewer
      ManualDecision.approved none (Or.inl rfl)).1,
   (manual_decision_frame (demoState RecommendedAction.flag) demoReviewer
      ManualDecision.approved none (Or.inl rfl)).2.1.1,
   (manual_decision_frame (demoState RecommendedAction.flag) demoReviewer
      ManualDecision.approved none (Or.inl rfl)).2.2.2.2.2.2.2.2.1⟩

/-- Helper: the three-way decision policy never yields `submitted`. -/
theorem decisionPolicy_ne_submitted (s : ℚ) (a : RecommendedAction) :
    decisionPolicy s a ≠ ApplicationStatus.submitted := by
  unfold decisionPolicy
  split
  · simp
  · split <;> simp

/-- Helper: the legacy two-way decision never yields `submitted`. -/
theorem legacyDecision_ne_submitted (s : ℚ) :
    legacyDecision s ≠ ApplicationStatus.submitted := by
  unfold legacyDecision
  split <;> simp

/-- C6: no operation on an existing application ever writes `submitted`:
every single status write (workflow step 1, either workflow's final decision,
or a manual decision) yields a non-`submitted` status; hence along any
operation sequence a non-`submitted` status never returns to `submitted`, and
after any nonempty operation sequence — wherever it starts, in particular at
`approved` or `flagged` — the status is not `submitted`. -/
theorem status_never_reverts_to_submitted :
    (∀ (op : WorkflowOp) (s : ApplicationStatus),
      applyOp op s ≠ ApplicationStatus.submitted) ∧
    (∀ (s : ApplicationStatus) (ops : List WorkflowOp),
      s ≠ ApplicationStatus.submitted →
      ops.foldl (fun t op => applyOp op t) s ≠ ApplicationStatus.submitted) ∧
    (∀ (s : ApplicationStatus) (ops : List WorkflowOp), ops ≠ [] →
      ops.foldl (fun t op => applyOp op t) s ≠ ApplicationStatus.submitted) := by
  have hop : ∀ (op : WorkflowOp) (s : ApplicationStatus),
      applyOp op s ≠ ApplicationStatus.submitted := by
    intro op s
    cases op with
    | workflowStart => simp [applyOp]
    | workflowDecide score action => exact decisionPolicy_ne_submitted score action
    | legacyWorkflowDecide score => exact legacyDecision_ne_submitted score
    | manualDecide decision =>
        cases decision <;> simp [applyOp, ManualDecision.toStatus]
  have hfold : ∀ (ops : List WorkflowOp) (s : ApplicationStatus),
      s ≠ ApplicationStatus.submitted →
      ops.foldl (fun t op => applyOp op t) s ≠ ApplicationStatus.submitted := by
    intro ops
    induction ops with
    | nil => intro s hs; exact hs
    | cons op rest ih =>
        intro s _
        exact ih (applyOp op s) (hop op s)
  refine ⟨hop, fun s ops => hfold ops s, ?_⟩
  intro s ops hne
  cases ops with
  | nil => exact absurd rfl hne
  | cons op rest =>
      exact hfold rest (applyOp op s) (hop op s)

/-- Witness for the C6 theorem: starting a review on a freshly `submitted`
application and letting the three-way workflow decide leaves it
non-`submitted`. -/
theorem status_never_reverts_witness :
    [WorkflowOp.workflowStart,
     WorkflowOp.workflowDecide 0.1 RecommendedAction.approve].foldl
      (fun t op => applyOp op t) ApplicationStatus.submitted ≠
      ApplicationStatus.submitted :=
  status_never_reverts_to_submitted.2.2 ApplicationStatus.submitted
    [WorkflowOp.workflowStart,
     WorkflowOp.workflowDecide 0.1 RecommendedAction.approve]
    (by simp)

/-- C8: for every `applicant` caller and every existing application, the
handler returns the application exactly when the stored applicant identity
matches the caller (linked `applicantId` equals the caller's id, or
`applicantEmail` equals the caller's email); otherwise it answers with an
explicit authorization failure (403), never with a not-found response. -/
theorem applicant_get_by_id_access (user : SessionUser)
    (application : Application) (hrole : user.role = UserRole.applicant) :
    (getApplicationHandler user (some application) =
        GetByIdResponse.ok application ↔
      (application.applicantId = some user.id ∨
        application.applicantEmail = user.email)) ∧
    (getApplicationHandler user (some application) = GetByIdResponse.forbidden ↔
      ¬(application.applicantId = some user.id ∨
        application.applicantEmail = user.email)) ∧
    getApplicationHandler user (some application) ≠ GetByIdResponse.notFound := by
  by_cases hmatch : application.applicantId = some user.id ∨
      application.applicantEmail = user.email
  · have hcond : ¬(application.applicantId ≠ some user.id ∧
        application.applicantEmail ≠ user.email) := by
      rcases hmatch with h | h <;> simp [h]
    simp [getApplicationHandler, hrole, hcond, hmatch]
  · have hcond : application.applicantId ≠ some user.id ∧
        application.applicantEmail ≠ user.email := by
      constructor <;> intro h <;> exact hmatch (by simp [h])
    simp [getApplicationHandler, hrole, hcond.1, hcond.2, hmatch]

/-- Witness for the C8 theorem: an applicant reading someone else's
application is refused with 403, and reading their own succeeds. -/
theorem applicant_get_by_id_access_witness :
    getApplicationHandler
      ⟨"user-2", "eve@rentals.example", "Eve", UserRole.applicant⟩
      (some ⟨"app-1", "Ann Applicant", "ann@rentals.example", none,
        some "user-1", ApplicationStatus.flagged⟩) =
      GetByIdResponse.forbidden ∧
    getApplicationHandler
      ⟨"user-1", "ann@rentals.example", "Ann", UserRole.applicant⟩
      (some ⟨"app-1", "Ann Applicant", "ann@rentals.example", none,
        some "user-1", ApplicationStatus.flagged⟩) =
      GetByIdResponse.ok ⟨"app-1", "Ann Applicant", "ann@rentals.example",
        none, some "user-1", ApplicationStatus.flagged⟩ :=
  ⟨((applicant_get_by_id_access
      ⟨"user-2", "eve@rentals.example", "Eve", UserRole.applicant⟩
      ⟨"app-1", "Ann Applicant", "ann@rentals.example", none, some "user-1",
        ApplicationStatus.flagged⟩ rfl).2.1).mpr (by decide),
   ((applicant_get_by_id_access
      ⟨"user-1", "ann@rentals.example", "Ann", UserRole.applicant⟩
      ⟨"app-1", "Ann Applicant", "ann@rentals.example", none, some "user-1",
        ApplicationStatus.flagged⟩ rfl).1).mpr (by decide)⟩

/-- C5 counterexample: on the syntactically valid response
`\x7b"recommendedAction":"garbage"\x7d` the parser succeeds and copies the
unvalidated string through, so the returned `recommendedAction` is `"garbage"`
— not one of `approve`/`flag`/`manual_review` — and the result is not
well-formed. -/
theorem parse_grok_wellformed_refuted :
    (parseGrokResponse "\x7b\x22recommendedAction\x22:\x22garbage\x22\x7d"
        (some garbageGrokJson) []).recommendedAction = Json.str "garbage" ∧
    ¬ wellFormedAction (parseGrokResponse
        "\x7b\x22recommendedAction\x22:\x22garbage\x22\x7d"
        (some garbageGrokJson) []).recommendedAction := by
  refine ⟨rfl, ?_⟩
  intro h
  rcases h with h | h | h <;> simp [parseGrokResponse, garbageGrokJson,
    jsonOr, Json.getField] at h

/-- C5 amended: the remote-path parser is a total function (never raises). On
parse failure — `JSON.parse` throwing, or a `null` top level that makes the
first property access throw — it returns the fixed well-formed fallback:
`manual_review`, the synthetic `ai_parse_error` signal, score 0.5 and
confidence 0.3. On parse success the two numeric fields are clamped into
`[0, 1]` whenever the response supplies them as JSON numbers (or omits them),
but `recommendedAction` is copied from the response unvalidated, defaulting to
`manual_review` only when the field is nullish — so the success path is
well-formed only when the response's `recommendedAction` is itself one of the
enum values or absent. -/
theorem parse_grok_amended (response : String) (documents : List Document)
    (fields : List (String × Json)) (q : ℚ) :
    ((parseGrokResponse response none documents).recommendedAction =
        Json.str "manual_review" ∧
      wellFormedAction
        (parseGrokResponse response none documents).recommendedAction ∧
      (parseGrokResponse response none documents).fraudScore = some 0.5 ∧
      (parseGrokResponse response none documents).confidenceLevel = some 0.3 ∧
      (parseGrokResponse response none documents).signals =
        [parseErrorSignalJson]) ∧
    parseGrokResponse response (some Json.null) documents =
      parseGrokResponse response none documents ∧
    ((Json.obj fields).getField "fraudScore" = Json.num q →
      (parseGrokResponse response (some (Json.obj fields))
        documents).fraudScore = some (clampUnit q)) ∧
    ((Json.obj fields).getField "confidenceLevel" = Json.num q →
      (parseGrokResponse response (some (Json.obj fields))
        documents).confidenceLevel = some (clampUnit q)) ∧
    (0 ≤ clampUnit q ∧ clampUnit q ≤ 1) ∧
    ((Json.obj fields).getField "recommendedAction" = Json.null →
      (parseGrokResponse response (some (Json.obj fields))
        documents).recommendedAction = Json.str "manual_review") ∧
    ((Json.obj fields).getField "recommendedAction" ≠ Json.null →
      (parseGrokResponse response (some (Json.obj fields))
        documents).recommendedAction =
        (Json.obj fields).getField "recommendedAction") := by
  refine ⟨⟨rfl, Or.inr (Or.inr rfl), rfl, rfl, rfl⟩, rfl, ?_, ?_,
    ⟨le_max_left _ _, max_le (by norm_num) (min_le_left _ _)⟩, ?_, ?_⟩
  · intro h
    show clampedNumField (Json.obj fields) "fraudScore" 0.5 = some (clampUnit q)
    rw [clampedNumField, h]
  · intro h
    show clampedNumField (Json.obj fields) "confidenceLevel" 0.5 =
      some (clampUnit q)
    rw [clampedNumField, h]
  · intro h
    show jsonOr ((Json.obj fields).getField "recommendedAction")
        (Json.str "manual_review") = Json.str "manual_review"
    rw [h]
    rfl
  · intro h
    show jsonOr ((Json.obj fields).getField "recommendedAction")
        (Json.str "manual_review") =
      (Json.obj fields).getField "recommendedAction"
    cases hj : (Json.obj fields).getField "recommendedAction" with
    | null => exact absurd hj h
    | bool b => rfl
    | num q2 => rfl
    | str s2 => rfl
    | arr items => rfl
    | obj fs => rfl

/-- Witness for the amended C5 theorem: a parse failure yields
`manual_review`; a response carrying `fraudScore: 5` is clamped to 1; a
response carrying `recommendedAction: "approve"` passes it through. -/
theorem parse_grok_amended_witness :
    (parseGrokResponse "" none []).recommendedAction =
      Json.str "manual_review" ∧
    (parseGrokResponse "" (some (Json.obj [("fraudScore", Json.num 5),
      ("recommendedAction", Json.str "approve")])) []).fraudScore =
      some (clampUnit 5) ∧
    (parseGrokResponse "" (some (Json.obj [("fraudScore", Json.num 5),
      ("recommendedAction", Json.str "approve")])) []).recommendedAction =
      Json.str "approve" :=
  ⟨(parse_grok_amended "" [] [("fraudScore", Json.num 5),
      ("recommendedAction", Json.str "approve")] 5).1.1,
   (parse_grok_amended "" [] [("fraudScore", Json.num 5),
      ("recommendedAction", Json.str "approve")] 5).2.2.1 rfl,
   (parse_grok_amended "" [] [("fraudScore", Json.num 5),
      ("recommendedAction", Json.str "approve")] 5).2.2.2.2.2.2
     (fun h => Json.noConfusion h)⟩

/-- C9 counterexample: a request with `limit=0` parses to the integer 0,
which JavaScript `||` replaces by 20, so the effective page size is 20 and —
against a store of thirty applications — the handler returns 20 rows, more
than `min(100, 0) = 0`. -/
theorem list_limit_zero_refuted :
    effectiveLimit (some 0) = 20 ∧
    (pageOf thirtyApps (effectiveLimit (some 0)) 0).length = 20 ∧
    ¬(((pageOf thirtyApps (effectiveLimit (some 0)) 0).length : ℤ) ≤
      min 100 0) := by
  exact ⟨by decide, by decide, by decide⟩

/-- C9 amended: for every positive requested limit `n` the effective page size
is exactly `min(100, n)` — silently clamped to 100 even when a larger limit is
requested — and the number of applications returned is at most `min(100, n)`;
when no limit parses (or it is zero, by the `||` fallback) the page size is
20; the effective page size never exceeds 100. -/
theorem list_limit_amended (n : ℤ) (hn : 1 ≤ n) (apps : List Application)
    (offset : ℤ) :
    effectiveLimit (some n) = min 100 n ∧
    ((pageOf apps (effectiveLimit (some n)) offset).length : ℤ) ≤ min 100 n ∧
    effectiveLimit none = 20 ∧
    effectiveLimit (some n) ≤ 100 := by
  have hne : n ≠ 0 := by omega
  have heq : effectiveLimit (some n) = min 100 n := by
    simp [effectiveLimit, hne]
  have h0 : (0 : ℤ) ≤ min 100 n := le_min (by norm_num) (by omega)
  refine ⟨heq, ?_, by decide, ?_⟩
  · rw [heq]
    have h1 : (pageOf apps (min 100 n) offset).length ≤ (min 100 n).toNat :=
      List.length_take_le _ _
    calc ((pageOf apps (min 100 n) offset).length : ℤ)
        ≤ ((min 100 n).toNat : ℤ) := by exact_mod_cast h1
      _ = min 100 n := Int.toNat_of_nonneg h0
  · rw [heq]
    exact min_le_left _ _

/-- Witness for the amended C9 theorem: a requested limit of 200 against
thirty stored applications is clamped to 100. -/
theorem list_limit_amended_witness :
    effectiveLimit (some 200) = min 100 200 ∧
    ((pageOf thirtyApps (effectiveLimit (some 200)) 0).length : ℤ) ≤
      min 100 200 ∧
    effectiveLimit none = 20 ∧
    effectiveLimit (some 200) ≤ 100 :=
  list_limit_amended 200 (by norm_num) thirtyApps 0
